import Mathlib

/-!
Verification of `cartesian_circle.py`, a MoveIt helper that builds the
waypoints of a closed Cartesian circle (`_build_waypoints`) and plans and
optionally executes it through an external `MoveGroupCommander`
(`plan_cartesian_circle`).

Embedding notes:
* Python floats are embedded as real numbers (`ℝ`), `math.cos`/`math.sin`/
  `math.pi` as `Real.cos`/`Real.sin`/`Real.pi`.
* `n_points` is an `int`, embedded as `ℤ`; `range(n_points + 1)` becomes
  `List.range (n_points + 1).toNat`, which like Python's `range` is empty
  when `n_points + 1 ≤ 0`.
* Runtime exceptions are embedded with `Except PyError`.  The Python code
  can raise `IndexError` (from `plane[0]`/`plane[1]`), `KeyError` (from the
  `axis` dict lookups) and `ZeroDivisionError` (from
  `2.0 * math.pi * i / n_points` when `n_points == 0`); it contains no
  `raise` statement of its own, so the `valueError` constructor (Python's
  invalid-argument `ValueError`) is produced by no code path.
* The three-element Python lists `centre` and `delta` are embedded as
  `List ℝ` with `List.set` for item assignment, preserving the source's
  assignment order (so `delta[axis[b]]` overwrites `delta[axis[a]]` when the
  two indices coincide).
* Evaluation order of failures follows the source: `plane[0]`/`plane[1]`
  first (line 25), then `axis[a]` (line 31, before the loop), then inside
  each loop iteration the angle division (line 36) before `axis[b]`
  (line 41).
* `plan_cartesian_circle` is embedded over an abstract collaborator record
  `MoveGroup`; the calls it makes into the collaborator are recorded in an
  event trace so that call-sequencing claims can be stated.
-/

namespace CartesianCircle

/-- Position part of a `geometry_msgs/Pose` (x, y, z in meters). -/
structure Point where
  x : ℝ
  y : ℝ
  z : ℝ

/-- Orientation quaternion of a `geometry_msgs/Pose`; the generator copies it
verbatim and never inspects it. -/
structure Orientation where
  x : ℝ
  y : ℝ
  z : ℝ
  w : ℝ

/-- A `geometry_msgs/Pose`: position plus orientation. -/
structure Pose where
  position : Point
  orientation : Orientation

/-- The runtime errors the Python source can raise, plus `valueError`
(Python's invalid-argument `ValueError`), which no code path of
`cartesian_circle.py` produces since the file has no `raise` statement. -/
inductive PyError where
  | indexError : PyError
  | keyError : Char → PyError
  | zeroDivisionError : PyError
  | valueError : PyError
deriving DecidableEq

/-- The dict `axis = {"x": 0, "y": 1, "z": 2}`; `none` models a `KeyError`. -/
def axisIndex : Char → Option Nat
  | 'x' => some 0
  | 'y' => some 1
  | 'z' => some 2
  | _ => none

/-- The list `[start_pose.position.x, start_pose.position.y,
start_pose.position.z]` of lines 28-30. -/
def posList (p : Pose) : List ℝ :=
  [p.position.x, p.position.y, p.position.z]

/-- The `centre` list after line 31's `centre[axis[a]] -= radius`. -/
def centreList (start_pose : Pose) (radius : ℝ) (ia : Nat) : List ℝ :=
  (posList start_pose).set ia ((posList start_pose).getD ia 0 - radius)

/-- The circle centre as a point, read back from `centreList`. -/
def centrePoint (start_pose : Pose) (radius : ℝ) (ia : Nat) : Point :=
  { x := (centreList start_pose radius ia).getD 0 0
    y := (centreList start_pose radius ia).getD 1 0
    z := (centreList start_pose radius ia).getD 2 0 }

/-- Body of one successful loop iteration (lines 36-46): the waypoint for
index `i`, given the resolved axis indices `ia`, `ib` and the `centre`
list.  `deepcopy` plus the three position assignments become a structure
update that replaces the position and keeps the orientation. -/
noncomputable def circlePose (start_pose : Pose) (radius : ℝ) (n_points : ℤ)
    (ia ib : Nat) (centre : List ℝ) (i : ℕ) : Pose :=
  let theta : ℝ := 2 * Real.pi * (i : ℝ) / (n_points : ℝ)
  let delta := (([0, 0, 0] : List ℝ).set ia (radius * Real.cos theta)).set ib
    (radius * Real.sin theta)
  { start_pose with
    position :=
      { x := centre.getD 0 0 + delta.getD 0 0
        y := centre.getD 1 0 + delta.getD 1 0
        z := centre.getD 2 0 + delta.getD 2 0 } }

/-- One loop iteration of lines 35-46 with its possible exceptions: the
division `2.0 * math.pi * i / n_points` raises `ZeroDivisionError` when
`n_points == 0` (before `axis[b]` is ever looked up), and `axis[b]` at
line 41 raises `KeyError` when `b` is not an axis letter. -/
noncomputable def circlePoint (start_pose : Pose) (radius : ℝ) (n_points : ℤ)
    (ia : Nat) (b : Char) (centre : List ℝ) (i : ℕ) : Except PyError Pose :=
  if n_points = 0 then Except.error PyError.zeroDivisionError
  else
    match axisIndex b with
    | none => Except.error (PyError.keyError b)
    | some ib => Except.ok (circlePose start_pose radius n_points ia ib centre i)

/-- The `for`-loop of lines 34-46: run the body left to right, collecting
the appended waypoints, propagating the first exception. -/
def collectLoop {α : Type} (f : ℕ → Except PyError α) : List ℕ → Except PyError (List α)
  | [] => Except.ok []
  | i :: rest =>
    match f i with
    | Except.error e => Except.error e
    | Except.ok w =>
      match collectLoop f rest with
      | Except.error e => Except.error e
      | Except.ok ws => Except.ok (w :: ws)

/-- Lines 27-48 of `_build_waypoints`, after `a, b = plane[0], plane[1]`
succeeded: `axis[a]` at line 31 raises `KeyError` when `a` is not an axis
letter; otherwise the loop runs over `range(n_points + 1)`. -/
noncomputable def buildWaypointsAux (start_pose : Pose) (radius : ℝ)
    (n_points : ℤ) (a b : Char) : Except PyError (List Pose) :=
  match axisIndex a with
  | none => Except.error (PyError.keyError a)
  | some ia =>
    collectLoop
      (circlePoint start_pose radius n_points ia b (centreList start_pose radius ia))
      (List.range (n_points + 1).toNat)

/-- `_build_waypoints(start_pose, radius, n_points, plane)` (lines 19-48).
`plane[0]`/`plane[1]` raise `IndexError` when `plane` has fewer than two
characters; the rest is `buildWaypointsAux`. -/
noncomputable def buildWaypoints (start_pose : Pose) (radius : ℝ) (n_points : ℤ)
    (plane : String) : Except PyError (List Pose) :=
  match plane.data with
  | a :: b :: _ => buildWaypointsAux start_pose radius n_points a b
  | _ => Except.error PyError.indexError

/-- The two dict lookups `axis[a]`, `axis[b]` bundled: `some` exactly when
both characters are axis letters. -/
def planeAxesAux (a b : Char) : Option (Nat × Nat) :=
  match axisIndex a, axisIndex b with
  | some ia, some ib => some (ia, ib)
  | _, _ => none

/-- The axis-index pair of a plane selector: `some` exactly when `plane` has
at least two characters and both of the first two are axis letters. -/
def planeAxes (plane : String) : Option (Nat × Nat) :=
  match plane.data with
  | a :: b :: _ => planeAxesAux a b
  | _ => none

/-- `true` exactly when the computation raised no exception. -/
def exceptIsOk {ε α : Type} : Except ε α → Bool
  | Except.ok _ => true
  | Except.error _ => false

/-- The successful result of a waypoint computation (`[]` on an error). -/
def okWaypoints : Except PyError (List Pose) → List Pose
  | Except.ok ws => ws
  | Except.error _ => []

/-- 3-dimensional Euclidean distance between two points. -/
noncomputable def dist3 (p q : Point) : ℝ :=
  Real.sqrt ((p.x - q.x) ^ 2 + (p.y - q.y) ^ 2 + (p.z - q.z) ^ 2)

/-- One call made into the `MoveGroupCommander` collaborator. -/
inductive CallEvent (Traj : Type) where
  | setMaxVelocityScalingFactor : ℝ → CallEvent Traj
  | getCurrentPose : CallEvent Traj
  | computeCartesianPath : List Pose → ℝ → ℝ → Bool → CallEvent Traj
  | execute : Traj → Bool → CallEvent Traj

/-- The collaborator's observable behaviour: the pose reported by
`get_current_pose().pose` and the `(trajectory, fraction)` pair returned by
`compute_cartesian_path` for a given waypoint list. -/
structure MoveGroup (Traj : Type) where
  current_pose : Pose
  compute_cartesian_path : List Pose → Traj × ℝ

/-- `plan_cartesian_circle` (lines 51-94), returning the trace of
collaborator calls together with the returned `(traj, fraction)` pair or
the propagated exception.  Lines 79 and 81 call
`set_max_velocity_scaling_factor` and `get_current_pose` before
`_build_waypoints` runs; `execute(traj, wait=True)` happens exactly when
`execute and fraction >= completeness_threshold`. -/
noncomputable def plan_cartesian_circle {Traj : Type} (move_group : MoveGroup Traj)
    (radius : ℝ) (n_points : ℤ) (plane : String) (eef_step : ℝ)
    (jump_threshold : ℝ) (velocity_scale : ℝ) (execFlag : Bool)
    (completeness_threshold : ℝ) :
    List (CallEvent Traj) × Except PyError (Traj × ℝ) :=
  let start_pose := move_group.current_pose
  match buildWaypoints start_pose radius n_points plane with
  | Except.error e =>
    ([CallEvent.setMaxVelocityScalingFactor velocity_scale,
      CallEvent.getCurrentPose],
     Except.error e)
  | Except.ok waypoints =>
    let tf := move_group.compute_cartesian_path waypoints
    if execFlag = true ∧ completeness_threshold ≤ tf.2 then
      ([CallEvent.setMaxVelocityScalingFactor velocity_scale,
        CallEvent.getCurrentPose,
        CallEvent.computeCartesianPath waypoints eef_step jump_threshold true,
        CallEvent.execute tf.1 true],
       Except.ok tf)
    else
      ([CallEvent.setMaxVelocityScalingFactor velocity_scale,
        CallEvent.getCurrentPose,
        CallEvent.computeCartesianPath waypoints eef_step jump_threshold true],
       Except.ok tf)

/-- Recognizer for `execute` calls in a trace. -/
def isExecuteCall {Traj : Type} : CallEvent Traj → Bool
  | CallEvent.execute _ _ => true
  | _ => false

/-- Concrete start pose of the spec's worked example: position `(1, 0, 0)`
with an (arbitrary) identity orientation. -/
def startPoseEx : Pose :=
  { position := { x := 1, y := 0, z := 0 }
    orientation := { x := 0, y := 0, z := 0, w := 1 } }

/-- A concrete collaborator whose `compute_cartesian_path` reports the given
completion fraction (trajectory object modelled by `ℕ`). -/
noncomputable def stubGroup (fraction : ℝ) : MoveGroup ℕ :=
  { current_pose := startPoseEx
    compute_cartesian_path := fun _ => (7, fraction) }

/-- The five waypoints the spec's worked example predicts for
`start_pose = (1, 0, 0)`, `radius = 0.1`, `n_points = 4`, `plane = "xy"`. -/
noncomputable def examplePoses : List Pose :=
  [{ startPoseEx with position := { x := 1, y := 0, z := 0 } },
   { startPoseEx with position := { x := 0.9, y := 0.1, z := 0 } },
   { startPoseEx with position := { x := 0.8, y := 0, z := 0 } },
   { startPoseEx with position := { x := 0.9, y := -0.1, z := 0 } },
   { startPoseEx with position := { x := 1, y := 0, z := 0 } }]

theorem collectLoop_ok {α : Type} (f : ℕ → Except PyError α) (g : ℕ → α)
    (l : List ℕ) (h : ∀ i ∈ l, f i = Except.ok (g i)) :
    collectLoop f l = Except.ok (l.map g) := by
  induction l with
  | nil => rfl
  | cons i rest ih =>
    have hi := h i (List.mem_cons_self i rest)
    have hrest := ih fun j hj => h j (List.mem_cons_of_mem i hj)
    simp [collectLoop, hi, hrest]

theorem circlePoint_ok (start_pose : Pose) (radius : ℝ) (n_points : ℤ)
    (ia ib : Nat) (b : Char) (centre : List ℝ) (i : ℕ)
    (hn : n_points ≠ 0) (hb : axisIndex b = some ib) :
    circlePoint start_pose radius n_points ia b centre i =
      Except.ok (circlePose start_pose radius n_points ia ib centre i) := by
  simp [circlePoint, hn, hb]

theorem buildWaypoints_data_cons (p : Pose) (r : ℝ) (n : ℤ) (plane : String)
    (a b : Char) (rest : List Char) (hd : plane.data = a :: b :: rest) :
    buildWaypoints p r n plane = buildWaypointsAux p r n a b := by
  unfold buildWaypoints
  rw [hd]

theorem buildWaypointsAux_ok (p : Pose) (r : ℝ) (n : ℤ) (a b : Char)
    (ia ib : Nat) (hA : axisIndex a = some ia) (hB : axisIndex b = some ib)
    (hn : n ≠ 0) :
    buildWaypointsAux p r n a b =
      Except.ok ((List.range (n + 1).toNat).map
        (circlePose p r n ia ib (centreList p r ia))) := by
  unfold buildWaypointsAux
  rw [hA]
  exact collectLoop_ok _ _ _ fun i _ => circlePoint_ok p r n ia ib b _ i hn hB

theorem buildWaypoints_valid (p : Pose) (r : ℝ) (n : ℤ) (plane : String)
    (a b : Char) (rest : List Char) (ia ib : Nat)
    (hplane : plane.data = a :: b :: rest)
    (ha : axisIndex a = some ia) (hb : axisIndex b = some ib) (hn : n ≠ 0) :
    buildWaypoints p r n plane =
      Except.ok ((List.range (n + 1).toNat).map
        (circlePose p r n ia ib (centreList p r ia))) := by
  rw [buildWaypoints_data_cons p r n plane a b rest hplane]
  exact buildWaypointsAux_ok p r n a b ia ib ha hb hn

theorem centreList_xy (p : Pose) (r : ℝ) :
    centreList p r 0 = [p.position.x - r, p.position.y, p.position.z] := rfl

theorem centreList_yz (p : Pose) (r : ℝ) :
    centreList p r 1 = [p.position.x, p.position.y - r, p.position.z] := rfl

theorem planeAxesAux_some_elim (a b : Char) (ia ib : Nat)
    (hax : planeAxesAux a b = some (ia, ib)) :
    axisIndex a = some ia ∧ axisIndex b = some ib := by
  unfold planeAxesAux at hax
  cases hA : axisIndex a with
  | none =>
    rw [hA] at hax
    cases hB : axisIndex b with
    | none =>
      rw [hB] at hax
      have hax3 : (none : Option (Nat × Nat)) = some (ia, ib) := hax
      cases hax3
    | some jb =>
      rw [hB] at hax
      have hax3 : (none : Option (Nat × Nat)) = some (ia, ib) := hax
      cases hax3
  | some ja =>
    rw [hA] at hax
    cases hB : axisIndex b with
    | none =>
      rw [hB] at hax
      have hax3 : (none : Option (Nat × Nat)) = some (ia, ib) := hax
      cases hax3
    | some jb =>
      rw [hB] at hax
      have hax3 : some (ja, jb) = some (ia, ib) := hax
      simp only [Option.some.injEq, Prod.mk.injEq] at hax3
      rw [hax3.1, hax3.2]
      exact ⟨rfl, rfl⟩

theorem planeAxes_some_elim (plane : String) (ia ib : Nat)
    (hax : planeAxes plane = some (ia, ib)) :
    ∃ a b rest, plane.data = a :: b :: rest ∧
      axisIndex a = some ia ∧ axisIndex b = some ib := by
  unfold planeAxes at hax
  cases hd : plane.data with
  | nil => rw [hd] at hax; exact absurd hax (by simp)
  | cons a tl =>
    cases tl with
    | nil => rw [hd] at hax; exact absurd hax (by simp)
    | cons b rest =>
      rw [hd] at hax
      have hax2 : planeAxesAux a b = some (ia, ib) := hax
      obtain ⟨hA, hB⟩ := planeAxesAux_some_elim a b ia ib hax2
      exact ⟨a, b, rest, rfl, hA, hB⟩

theorem buildWaypoints_ok_any (p : Pose) (r : ℝ) (n : ℤ) (plane : String)
    (ia ib : Nat) (hax : planeAxes plane = some (ia, ib)) (hn : n ≠ 0) :
    buildWaypoints p r n plane =
      Except.ok ((List.range (n + 1).toNat).map
        (circlePose p r n ia ib (centreList p r ia))) := by
  obtain ⟨a, b, rest, hd, hA, hB⟩ := planeAxes_some_elim plane ia ib hax
  exact buildWaypoints_valid p r n plane a b rest ia ib hd hA hB hn

theorem circlePose_xy (p : Pose) (r : ℝ) (n : ℤ) (i : ℕ) :
    circlePose p r n 0 1 (centreList p r 0) i =
      { p with position :=
        { x := p.position.x - r + r * Real.cos (2 * Real.pi * (i : ℝ) / (n : ℝ))
          y := p.position.y + r * Real.sin (2 * Real.pi * (i : ℝ) / (n : ℝ))
          z := p.position.z } } := by
  simp [circlePose, centreList, posList]

theorem circlePose_yz (p : Pose) (r : ℝ) (n : ℤ) (i : ℕ) :
    circlePose p r n 1 2 (centreList p r 1) i =
      { p with position :=
        { x := p.position.x
          y := p.position.y - r + r * Real.cos (2 * Real.pi * (i : ℝ) / (n : ℝ))
          z := p.position.z + r * Real.sin (2 * Real.pi * (i : ℝ) / (n : ℝ)) } } := by
  simp [circlePose, centreList, posList]

theorem circlePose_xz (p : Pose) (r : ℝ) (n : ℤ) (i : ℕ) :
    circlePose p r n 0 2 (centreList p r 0) i =
      { p with position :=
        { x := p.position.x - r + r * Real.cos (2 * Real.pi * (i : ℝ) / (n : ℝ))
          y := p.position.y
          z := p.position.z + r * Real.sin (2 * Real.pi * (i : ℝ) / (n : ℝ)) } } := by
  simp [circlePose, centreList, posList]

theorem intCast_ne_zero_of_one_le (n : ℤ) (hn : 1 ≤ n) : ((n : ℝ)) ≠ 0 := by
  have h1 : (1 : ℝ) ≤ (n : ℝ) := by exact_mod_cast hn
  linarith

theorem theta_last (n : ℤ) (hn : 1 ≤ n) :
    2 * Real.pi * ((n.toNat : ℕ) : ℝ) / (n : ℝ) = 2 * Real.pi := by
  have hcast : ((n.toNat : ℕ) : ℝ) = (n : ℝ) := by
    exact_mod_cast Int.toNat_of_nonneg (by omega : (0 : ℤ) ≤ n)
  rw [hcast, mul_div_assoc, div_self (intCast_ne_zero_of_one_le n hn), mul_one]

theorem circlePose_closed (p : Pose) (r : ℝ) (n : ℤ) (ia ib : Nat) (c : List ℝ)
    (hn : 1 ≤ n) :
    circlePose p r n ia ib c 0 = circlePose p r n ia ib c n.toNat := by
  unfold circlePose
  have h0 : 2 * Real.pi * ((0 : ℕ) : ℝ) / (n : ℝ) = 0 := by push_cast; ring
  simp only [h0, theta_last n hn, Real.cos_zero, Real.sin_zero, Real.cos_two_pi,
    Real.sin_two_pi]

theorem dist3_eq (pt c : Point) (r : ℝ) (hr : 0 ≤ r)
    (h : (pt.x - c.x) ^ 2 + (pt.y - c.y) ^ 2 + (pt.z - c.z) ^ 2 = r ^ 2) :
    dist3 pt c = r := by
  unfold dist3
  rw [h]
  exact Real.sqrt_sq hr

theorem cos_pi_add_half : Real.cos (Real.pi + Real.pi / 2) = 0 := by
  rw [Real.cos_add, Real.cos_pi, Real.sin_pi, Real.cos_pi_div_two]
  ring

theorem sin_pi_add_half : Real.sin (Real.pi + Real.pi / 2) = -1 := by
  rw [Real.sin_add, Real.cos_pi, Real.sin_pi, Real.sin_pi_div_two]
  ring

theorem buildWaypoints_example :
    buildWaypoints startPoseEx 0.1 4 "xy" = Except.ok examplePoses := by
  rw [buildWaypoints_valid startPoseEx 0.1 4 "xy" 'x' 'y' [] 0 1 rfl rfl rfl
    (by decide)]
  have h0 : circlePose startPoseEx 0.1 4 0 1 (centreList startPoseEx 0.1 0) 0 =
      { startPoseEx with position := { x := 1, y := 0, z := 0 } } := by
    rw [circlePose_xy]
    have ht : 2 * Real.pi * ((0 : ℕ) : ℝ) / ((4 : ℤ) : ℝ) = 0 := by push_cast; ring
    rw [ht, Real.cos_zero, Real.sin_zero]
    norm_num [startPoseEx, Pose.mk.injEq, Point.mk.injEq]
  have h1 : circlePose startPoseEx 0.1 4 0 1 (centreList startPoseEx 0.1 0) 1 =
      { startPoseEx with position := { x := 0.9, y := 0.1, z := 0 } } := by
    rw [circlePose_xy]
    have ht : 2 * Real.pi * ((1 : ℕ) : ℝ) / ((4 : ℤ) : ℝ) = Real.pi / 2 := by
      push_cast; ring
    rw [ht, Real.cos_pi_div_two, Real.sin_pi_div_two]
    norm_num [startPoseEx, Pose.mk.injEq, Point.mk.injEq]
  have h2 : circlePose startPoseEx 0.1 4 0 1 (centreList startPoseEx 0.1 0) 2 =
      { startPoseEx with position := { x := 0.8, y := 0, z := 0 } } := by
    rw [circlePose_xy]
    have ht : 2 * Real.pi * ((2 : ℕ) : ℝ) / ((4 : ℤ) : ℝ) = Real.pi := by
      push_cast; ring
    rw [ht, Real.cos_pi, Real.sin_pi]
    norm_num [startPoseEx, Pose.mk.injEq, Point.mk.injEq]
  have h3 : circlePose startPoseEx 0.1 4 0 1 (centreList startPoseEx 0.1 0) 3 =
      { startPoseEx with position := { x := 0.9, y := -0.1, z := 0 } } := by
    rw [circlePose_xy]
    have ht : 2 * Real.pi * ((3 : ℕ) : ℝ) / ((4 : ℤ) : ℝ) =
        Real.pi + Real.pi / 2 := by push_cast; ring
    rw [ht, cos_pi_add_half, sin_pi_add_half]
    norm_num [startPoseEx, Pose.mk.injEq, Point.mk.injEq]
  have h4 : circlePose startPoseEx 0.1 4 0 1 (centreList startPoseEx 0.1 0) 4 =
      { startPoseEx with position := { x := 1, y := 0, z := 0 } } := by
    rw [circlePose_xy]
    have ht : 2 * Real.pi * ((4 : ℕ) : ℝ) / ((4 : ℤ) : ℝ) = 2 * Real.pi := by
      push_cast; ring
    rw [ht, Real.cos_two_pi, Real.sin_two_pi]
    norm_num [startPoseEx, Pose.mk.injEq, Point.mk.injEq]
  rw [show ((4 : ℤ) + 1).toNat = 5 from rfl,
    show List.range 5 = [0, 1, 2, 3, 4] from rfl]
  simp only [List.map_cons, List.map_nil]
  rw [h0, h1, h2, h3, h4]
  rfl

theorem valid_plane_axes (plane : String)
    (hp : plane = "xy" ∨ plane = "yz" ∨ plane = "xz") :
    ∃ ia ib, planeAxes plane = some (ia, ib) := by
  rcases hp with h | h | h <;> subst h
  · exact ⟨0, 1, rfl⟩
  · exact ⟨1, 2, rfl⟩
  · exact ⟨0, 2, rfl⟩

/-- C1: for every start pose, radius > 0, n_points ≥ 1, and valid plane with
axis pair (ia, ib), the i-th waypoint (0 ≤ i ≤ n_points) has a-axis
coordinate `centre_a + radius·cos(2π·i/n_points)` and b-axis coordinate
`centre_b + radius·sin(2π·i/n_points)`, where the centre is the start
position with radius subtracted on the a-axis; in particular, for start
position (1,0,0), radius 0.1, n_points 4, plane "xy", the centre is
(0.9,0,0) and the five waypoints are (1,0,0), (0.9,0.1,0), (0.8,0,0),
(0.9,-0.1,0), (1,0,0). -/
theorem C1_waypoint_coordinates (p : Pose) (r : ℝ) (n : ℤ) (plane : String)
    (ia ib : Nat) (i : ℕ) (hr : 0 < r) (hn : 1 ≤ n)
    (hp : plane = "xy" ∨ plane = "yz" ∨ plane = "xz")
    (hax : planeAxes plane = some (ia, ib)) (hi : (i : ℤ) ≤ n) :
    (((okWaypoints (buildWaypoints p r n plane))[i]?).map
        (fun w => ((posList w).getD ia 0, (posList w).getD ib 0)) =
      some ((centreList p r ia).getD ia 0 +
              r * Real.cos (2 * Real.pi * (i : ℝ) / (n : ℝ)),
            (centreList p r ia).getD ib 0 +
              r * Real.sin (2 * Real.pi * (i : ℝ) / (n : ℝ)))) ∧
    centrePoint startPoseEx 0.1 0 = { x := 0.9, y := 0, z := 0 } ∧
    buildWaypoints startPoseEx 0.1 4 "xy" = Except.ok examplePoses := by
  refine ⟨?_, ?_, buildWaypoints_example⟩
  · have hne : n ≠ 0 := by omega
    rw [buildWaypoints_ok_any p r n plane ia ib hax hne]
    have hlt : i < (n + 1).toNat := by omega
    rcases hp with h | h | h <;> subst h
    · have hax2 : some ((0 : ℕ), (1 : ℕ)) = some (ia, ib) := hax
      obtain ⟨h1, h2⟩ : 0 = ia ∧ 1 = ib := by simpa using hax2
      subst h1; subst h2
      simp only [okWaypoints, List.getElem?_map, List.getElem?_range hlt,
        Option.map_some']
      rw [circlePose_xy]
      simp [posList, centreList]
    · have hax2 : some ((1 : ℕ), (2 : ℕ)) = some (ia, ib) := hax
      obtain ⟨h1, h2⟩ : 1 = ia ∧ 2 = ib := by simpa using hax2
      subst h1; subst h2
      simp only [okWaypoints, List.getElem?_map, List.getElem?_range hlt,
        Option.map_some']
      rw [circlePose_yz]
      simp [posList, centreList]
    · have hax2 : some ((0 : ℕ), (2 : ℕ)) = some (ia, ib) := hax
      obtain ⟨h1, h2⟩ : 0 = ia ∧ 2 = ib := by simpa using hax2
      subst h1; subst h2
      simp only [okWaypoints, List.getElem?_map, List.getElem?_range hlt,
        Option.map_some']
      rw [circlePose_xz]
      simp [posList, centreList]
  · norm_num [centrePoint, centreList, posList, startPoseEx, Point.mk.injEq]

theorem C1_witness :
    (0 : ℝ) < 0.1 ∧ (1 : ℤ) ≤ 4 ∧
    ("xy" = "xy" ∨ "xy" = "yz" ∨ "xy" = "xz") ∧
    planeAxes "xy" = some (0, 1) ∧ ((1 : ℕ) : ℤ) ≤ 4 ∧
    ((((okWaypoints (buildWaypoints startPoseEx 0.1 4 "xy"))[(1 : ℕ)]?).map
        (fun w => ((posList w).getD 0 0, (posList w).getD 1 0)) =
      some ((centreList startPoseEx 0.1 0).getD 0 0 +
              0.1 * Real.cos (2 * Real.pi * ((1 : ℕ) : ℝ) / ((4 : ℤ) : ℝ)),
            (centreList startPoseEx 0.1 0).getD 1 0 +
              0.1 * Real.sin (2 * Real.pi * ((1 : ℕ) : ℝ) / ((4 : ℤ) : ℝ)))) ∧
      centrePoint startPoseEx 0.1 0 = { x := 0.9, y := 0, z := 0 } ∧
      buildWaypoints startPoseEx 0.1 4 "xy" = Except.ok examplePoses) :=
  ⟨by norm_num, by norm_num, Or.inl rfl, rfl, by norm_num,
   C1_waypoint_coordinates startPoseEx 0.1 4 "xy" 0 1 1 (by norm_num)
     (by norm_num) (Or.inl rfl) rfl (by norm_num)⟩

/-- C2: for every start pose, radius > 0, n_points ≥ 1, and valid plane, the
returned sequence has exactly n_points + 1 elements and the position of
element 0 equals the position of element n_points (closed loop). -/
theorem C2_closed_loop (p : Pose) (r : ℝ) (n : ℤ) (plane : String)
    (hr : 0 < r) (hn : 1 ≤ n)
    (hp : plane = "xy" ∨ plane = "yz" ∨ plane = "xz") :
    exceptIsOk (buildWaypoints p r n plane) = true ∧
    ((okWaypoints (buildWaypoints p r n plane)).length : ℤ) = n + 1 ∧
    ((okWaypoints (buildWaypoints p r n plane))[(0 : ℕ)]?).map Pose.position =
      ((okWaypoints (buildWaypoints p r n plane))[n.toNat]?).map Pose.position := by
  have hne : n ≠ 0 := by omega
  obtain ⟨ia, ib, hax⟩ := valid_plane_axes plane hp
  rw [buildWaypoints_ok_any p r n plane ia ib hax hne]
  refine ⟨rfl, ?_, ?_⟩
  · simp only [okWaypoints, List.length_map, List.length_range]
    omega
  · have hlen0 : (0 : ℕ) < (n + 1).toNat := by omega
    have hlenn : n.toNat < (n + 1).toNat := by omega
    simp only [okWaypoints, List.getElem?_map, List.getElem?_range hlen0,
      List.getElem?_range hlenn, Option.map_some']
    rw [circlePose_closed p r n ia ib _ hn]

theorem C2_witness :
    (0 : ℝ) < 0.1 ∧ (1 : ℤ) ≤ 4 ∧
    ("xy" = "xy" ∨ "xy" = "yz" ∨ "xy" = "xz") ∧
    (exceptIsOk (buildWaypoints startPoseEx 0.1 4 "xy") = true ∧
     ((okWaypoints (buildWaypoints startPoseEx 0.1 4 "xy")).length : ℤ) = 4 + 1 ∧
     ((okWaypoints (buildWaypoints startPoseEx 0.1 4 "xy"))[(0 : ℕ)]?).map
         Pose.position =
       ((okWaypoints (buildWaypoints startPoseEx 0.1 4 "xy"))[(4 : ℤ).toNat]?).map
         Pose.position) :=
  ⟨by norm_num, by norm_num, Or.inl rfl,
   C2_closed_loop startPoseEx 0.1 4 "xy" (by norm_num) (by norm_num) (Or.inl rfl)⟩

theorem dist3_ab0 (cx cy cz r θ : ℝ) (hr : 0 ≤ r) :
    dist3 { x := cx + r * Real.cos θ, y := cy + r * Real.sin θ, z := cz }
      { x := cx, y := cy, z := cz } = r := by
  refine dist3_eq _ _ r hr ?_
  have hs := Real.sin_sq_add_cos_sq θ
  dsimp only
  linear_combination r ^ 2 * hs

theorem dist3_0ab (cx cy cz r θ : ℝ) (hr : 0 ≤ r) :
    dist3 { x := cx, y := cy + r * Real.cos θ, z := cz + r * Real.sin θ }
      { x := cx, y := cy, z := cz } = r := by
  refine dist3_eq _ _ r hr ?_
  have hs := Real.sin_sq_add_cos_sq θ
  dsimp only
  linear_combination r ^ 2 * hs

theorem dist3_a0b (cx cy cz r θ : ℝ) (hr : 0 ≤ r) :
    dist3 { x := cx + r * Real.cos θ, y := cy, z := cz + r * Real.sin θ }
      { x := cx, y := cy, z := cz } = r := by
  refine dist3_eq _ _ r hr ?_
  have hs := Real.sin_sq_add_cos_sq θ
  dsimp only
  linear_combination r ^ 2 * hs

/-- C3: for every start pose, radius > 0, n_points ≥ 1, and valid plane,
every returned waypoint lies at 3D Euclidean distance exactly radius from
the computed circle centre. -/
theorem C3_radius_invariant (p : Pose) (r : ℝ) (n : ℤ) (plane : String)
    (ia ib : Nat) (w : Pose) (hr : 0 < r) (hn : 1 ≤ n)
    (hp : plane = "xy" ∨ plane = "yz" ∨ plane = "xz")
    (hax : planeAxes plane = some (ia, ib))
    (hw : w ∈ okWaypoints (buildWaypoints p r n plane)) :
    dist3 w.position (centrePoint p r ia) = r := by
  have hne : n ≠ 0 := by omega
  rw [buildWaypoints_ok_any p r n plane ia ib hax hne] at hw
  simp only [okWaypoints, List.mem_map] at hw
  obtain ⟨i, _, rfl⟩ := hw
  rcases hp with h | h | h <;> subst h
  · have hax2 : some ((0 : ℕ), (1 : ℕ)) = some (ia, ib) := hax
    obtain ⟨h1, h2⟩ : 0 = ia ∧ 1 = ib := by simpa using hax2
    subst h1; subst h2
    rw [circlePose_xy]
    have hc : centrePoint p r 0 =
        { x := p.position.x - r, y := p.position.y, z := p.position.z } := rfl
    rw [hc]
    exact dist3_ab0 (p.position.x - r) p.position.y p.position.z r _ hr.le
  · have hax2 : some ((1 : ℕ), (2 : ℕ)) = some (ia, ib) := hax
    obtain ⟨h1, h2⟩ : 1 = ia ∧ 2 = ib := by simpa using hax2
    subst h1; subst h2
    rw [circlePose_yz]
    have hc : centrePoint p r 1 =
        { x := p.position.x, y := p.position.y - r, z := p.position.z } := rfl
    rw [hc]
    exact dist3_0ab p.position.x (p.position.y - r) p.position.z r _ hr.le
  · have hax2 : some ((0 : ℕ), (2 : ℕ)) = some (ia, ib) := hax
    obtain ⟨h1, h2⟩ : 0 = ia ∧ 2 = ib := by simpa using hax2
    subst h1; subst h2
    rw [circlePose_xz]
    have hc : centrePoint p r 0 =
        { x := p.position.x - r, y := p.position.y, z := p.position.z } := rfl
    rw [hc]
    exact dist3_a0b (p.position.x - r) p.position.y p.position.z r _ hr.le

theorem C3_witness :
    (0 : ℝ) < 0.1 ∧ (1 : ℤ) ≤ 4 ∧
    ("xy" = "xy" ∨ "xy" = "yz" ∨ "xy" = "xz") ∧
    planeAxes "xy" = some (0, 1) ∧
    ({ startPoseEx with position := { x := 0.9, y := 0.1, z := 0 } } : Pose) ∈
      okWaypoints (buildWaypoints startPoseEx 0.1 4 "xy") ∧
    dist3 ({ startPoseEx with
      position := { x := 0.9, y := 0.1, z := 0 } } : Pose).position
      (centrePoint startPoseEx 0.1 0) = 0.1 := by
  have hw : ({ startPoseEx with
      position := { x := 0.9, y := 0.1, z := 0 } } : Pose) ∈
      okWaypoints (buildWaypoints startPoseEx 0.1 4 "xy") := by
    rw [buildWaypoints_example]
    exact List.mem_cons_of_mem _ (List.mem_cons_self _ _)
  exact ⟨by norm_num, by norm_num, Or.inl rfl, rfl, hw,
    C3_radius_invariant startPoseEx 0.1 4 "xy" 0 1 _ (by norm_num) (by norm_num)
      (Or.inl rfl) rfl hw⟩

/-- C4: every returned waypoint keeps the start pose's orientation exactly
and keeps the unlisted third-axis position coordinate (z for "xy", x for
"yz", y for "xz"); only the two plane-axis coordinates are altered.  The
embedding is pure, mirroring the source's `copy.deepcopy`: each waypoint is
a fresh value and `start_pose` is never mutated. -/
theorem C4_independent_copy (p : Pose) (r : ℝ) (n : ℤ) (plane : String)
    (w : Pose) (hr : 0 < r) (hn : 1 ≤ n)
    (hp : plane = "xy" ∨ plane = "yz" ∨ plane = "xz")
    (hw : w ∈ okWaypoints (buildWaypoints p r n plane)) :
    w.orientation = p.orientation ∧
    (plane = "xy" → w.position.z = p.position.z) ∧
    (plane = "yz" → w.position.x = p.position.x) ∧
    (plane = "xz" → w.position.y = p.position.y) := by
  obtain ⟨ia, ib, hax⟩ := valid_plane_axes plane hp
  have hne : n ≠ 0 := by omega
  rw [buildWaypoints_ok_any p r n plane ia ib hax hne] at hw
  simp only [okWaypoints, List.mem_map] at hw
  obtain ⟨i, _, rfl⟩ := hw
  rcases hp with h | h | h <;> subst h
  · have hax2 : some ((0 : ℕ), (1 : ℕ)) = some (ia, ib) := hax
    obtain ⟨h1, h2⟩ : 0 = ia ∧ 1 = ib := by simpa using hax2
    subst h1; subst h2
    rw [circlePose_xy]
    exact ⟨rfl, fun _ => rfl, fun hc => absurd hc (by decide),
      fun hc => absurd hc (by decide)⟩
  · have hax2 : some ((1 : ℕ), (2 : ℕ)) = some (ia, ib) := hax
    obtain ⟨h1, h2⟩ : 1 = ia ∧ 2 = ib := by simpa using hax2
    subst h1; subst h2
    rw [circlePose_yz]
    exact ⟨rfl, fun hc => absurd hc (by decide), fun _ => rfl,
      fun hc => absurd hc (by decide)⟩
  · have hax2 : some ((0 : ℕ), (2 : ℕ)) = some (ia, ib) := hax
    obtain ⟨h1, h2⟩ : 0 = ia ∧ 2 = ib := by simpa using hax2
    subst h1; subst h2
    rw [circlePose_xz]
    exact ⟨rfl, fun hc => absurd hc (by decide), fun hc => absurd hc (by decide),
      fun _ => rfl⟩

theorem C4_witness :
    (0 : ℝ) < 0.1 ∧ (1 : ℤ) ≤ 4 ∧
    ("xy" = "xy" ∨ "xy" = "yz" ∨ "xy" = "xz") ∧
    ({ startPoseEx with position := { x := 0.9, y := 0.1, z := 0 } } : Pose) ∈
      okWaypoints (buildWaypoints startPoseEx 0.1 4 "xy") ∧
    (({ startPoseEx with
        position := { x := 0.9, y := 0.1, z := 0 } } : Pose).orientation =
      startPoseEx.orientation ∧
     ("xy" = "xy" → ({ startPoseEx with
        position := { x := 0.9, y := 0.1, z := 0 } } : Pose).position.z =
        startPoseEx.position.z) ∧
     ("xy" = "yz" → ({ startPoseEx with
        position := { x := 0.9, y := 0.1, z := 0 } } : Pose).position.x =
        startPoseEx.position.x) ∧
     ("xy" = "xz" → ({ startPoseEx with
        position := { x := 0.9, y := 0.1, z := 0 } } : Pose).position.y =
        startPoseEx.position.y)) := by
  have hw : ({ startPoseEx with
      position := { x := 0.9, y := 0.1, z := 0 } } : Pose) ∈
      okWaypoints (buildWaypoints startPoseEx 0.1 4 "xy") := by
    rw [buildWaypoints_example]
    exact List.mem_cons_of_mem _ (List.mem_cons_self _ _)
  exact ⟨by norm_num, by norm_num, Or.inl rfl, hw,
    C4_independent_copy startPoseEx 0.1 4 "xy" _ (by norm_num) (by norm_num)
      (Or.inl rfl) hw⟩

/-- C5: `plan_cartesian_circle` calls the collaborator's `execute` (with
`wait=True`) exactly once if and only if the `execute` flag is set and the
fraction reported by `compute_cartesian_path` is at least the completeness
threshold, and it returns the `(trajectory, fraction)` pair either way. -/
theorem C5_execution_gating {Traj : Type} (mg : MoveGroup Traj) (r : ℝ) (n : ℤ)
    (plane : String) (es js vs : ℝ) (execFlag : Bool) (ct : ℝ) (ws : List Pose)
    (hws : buildWaypoints mg.current_pose r n plane = Except.ok ws) :
    ((plan_cartesian_circle mg r n plane es js vs execFlag ct).1.filter
        isExecuteCall =
      if execFlag = true ∧ ct ≤ (mg.compute_cartesian_path ws).2 then
        [CallEvent.execute (mg.compute_cartesian_path ws).1 true]
      else []) ∧
    (plan_cartesian_circle mg r n plane es js vs execFlag ct).2 =
      Except.ok (mg.compute_cartesian_path ws) := by
  unfold plan_cartesian_circle
  simp only [hws]
  by_cases hcond : execFlag = true ∧ ct ≤ (mg.compute_cartesian_path ws).2
  · simp only [if_pos hcond]
    exact ⟨by simp [isExecuteCall, List.filter], by trivial⟩
  · simp only [if_neg hcond]
    exact ⟨by simp [isExecuteCall, List.filter], by trivial⟩

theorem C5_witness :
    (buildWaypoints (stubGroup 0.97).current_pose 0.1 4 "xy" =
      Except.ok examplePoses) ∧
    (plan_cartesian_circle (stubGroup 0.97) 0.1 4 "xy" 0.005 0 0.2 true
        0.95).1.filter isExecuteCall = [CallEvent.execute 7 true] ∧
    (plan_cartesian_circle (stubGroup 0.97) 0.1 4 "xy" 0.005 0 0.2 true
        0.95).2 = Except.ok (7, 0.97) ∧
    (plan_cartesian_circle (stubGroup 0.5) 0.1 4 "xy" 0.005 0 0.2 true
        0.95).1.filter isExecuteCall = [] ∧
    (plan_cartesian_circle (stubGroup 0.5) 0.1 4 "xy" 0.005 0 0.2 true
        0.95).2 = Except.ok (7, 0.5) := by
  have hb97 : buildWaypoints (stubGroup 0.97).current_pose 0.1 4 "xy" =
      Except.ok examplePoses := buildWaypoints_example
  have hb50 : buildWaypoints (stubGroup 0.5).current_pose 0.1 4 "xy" =
      Except.ok examplePoses := buildWaypoints_example
  have h97 := C5_execution_gating (stubGroup 0.97) 0.1 4 "xy" 0.005 0 0.2 true
    0.95 examplePoses hb97
  have h50 := C5_execution_gating (stubGroup 0.5) 0.1 4 "xy" 0.005 0 0.2 true
    0.95 examplePoses hb50
  have hc97 : (true = true ∧ (0.95 : ℝ) ≤
      ((stubGroup 0.97).compute_cartesian_path examplePoses).2) :=
    ⟨rfl, by norm_num [stubGroup]⟩
  have hc50 : ¬ (true = true ∧ (0.95 : ℝ) ≤
      ((stubGroup 0.5).compute_cartesian_path examplePoses).2) := by
    norm_num [stubGroup]
  rw [if_pos hc97] at h97
  rw [if_neg hc50] at h50
  exact ⟨hb97, h97.1, h97.2, h50.1, h50.2⟩

/-- C6 (amended): for every start pose, radius, and valid plane, calling the
generator with `n_points = 0` performs the division by zero in the angle
computation and so raises `ZeroDivisionError`; no pre-validated
invalid-argument rejection exists in the code. -/
theorem C6_zero_points_zero_division (p : Pose) (r : ℝ) (plane : String)
    (hp : plane = "xy" ∨ plane = "yz" ∨ plane = "xz") :
    buildWaypoints p r 0 plane = Except.error PyError.zeroDivisionError := by
  rcases hp with h | h | h <;> subst h <;> rfl

/-- C6 counterexample: at start pose (1,0,0), radius 0.1, plane "xy",
`n_points = 0` yields `ZeroDivisionError` — the division by zero is
performed — not Python's invalid-argument `ValueError`. -/
theorem C6_counterexample :
    buildWaypoints startPoseEx 0.1 0 "xy" =
      Except.error PyError.zeroDivisionError ∧
    (Except.error PyError.zeroDivisionError : Except PyError (List Pose)) ≠
      Except.error PyError.valueError := by
  refine ⟨rfl, fun hcontr => ?_⟩
  have h2 := Except.error.inj hcontr
  cases h2

theorem C6_witness :
    ("xy" = "xy" ∨ "xy" = "yz" ∨ "xy" = "xz") ∧
    buildWaypoints startPoseEx 0.1 0 "xy" =
      Except.error PyError.zeroDivisionError :=
  ⟨Or.inl rfl, C6_zero_points_zero_division startPoseEx 0.1 "xy" (Or.inl rfl)⟩

/-- C9: for every start pose, n_points ≥ 1, and valid plane, radius 0 raises
no error and returns n_points + 1 poses, each identical to the start pose in
both position and orientation (a degenerate circle). -/
theorem C9_zero_radius_degenerate (p : Pose) (n : ℤ) (plane : String)
    (hn : 1 ≤ n) (hp : plane = "xy" ∨ plane = "yz" ∨ plane = "xz") :
    buildWaypoints p 0 n plane = Except.ok (List.replicate (n.toNat + 1) p) := by
  have hne : n ≠ 0 := by omega
  have hcount : (n + 1).toNat = n.toNat + 1 := by omega
  obtain ⟨ia, ib, hax⟩ := valid_plane_axes plane hp
  rw [buildWaypoints_ok_any p 0 n plane ia ib hax hne, hcount]
  refine congrArg Except.ok ?_
  have hconst : ∀ i : ℕ, circlePose p 0 n ia ib (centreList p 0 ia) i = p := by
    intro i
    rcases hp with h | h | h <;> subst h
    · have hax2 : some ((0 : ℕ), (1 : ℕ)) = some (ia, ib) := hax
      obtain ⟨h1, h2⟩ : 0 = ia ∧ 1 = ib := by simpa using hax2
      subst h1; subst h2
      rw [circlePose_xy]
      norm_num
    · have hax2 : some ((1 : ℕ), (2 : ℕ)) = some (ia, ib) := hax
      obtain ⟨h1, h2⟩ : 1 = ia ∧ 2 = ib := by simpa using hax2
      subst h1; subst h2
      rw [circlePose_yz]
      norm_num
    · have hax2 : some ((0 : ℕ), (2 : ℕ)) = some (ia, ib) := hax
      obtain ⟨h1, h2⟩ : 0 = ia ∧ 2 = ib := by simpa using hax2
      subst h1; subst h2
      rw [circlePose_xz]
      norm_num
  calc (List.range (n.toNat + 1)).map (circlePose p 0 n ia ib (centreList p 0 ia))
      = (List.range (n.toNat + 1)).map (fun _ => p) := by
        exact List.map_congr_left fun i _ => hconst i
    _ = List.replicate (n.toNat + 1) p := by
        simp [List.eq_replicate_iff, List.mem_map]

theorem C9_witness :
    (1 : ℤ) ≤ 4 ∧ ("xy" = "xy" ∨ "xy" = "yz" ∨ "xy" = "xz") ∧
    buildWaypoints startPoseEx 0 4 "xy" =
      Except.ok (List.replicate ((4 : ℤ).toNat + 1) startPoseEx) :=
  ⟨by norm_num, Or.inl rfl,
   C9_zero_radius_degenerate startPoseEx 4 "xy" (by norm_num) (Or.inl rfl)⟩

/-- C10: for every start pose, radius, valid plane, and negative n_points,
the loop body is never entered: no error is raised and the empty sequence is
returned, so the length-(n_points + 1) property stops below n_points = 1. -/
theorem C10_negative_points_empty (p : Pose) (r : ℝ) (n : ℤ) (plane : String)
    (hn : n ≤ -1) (hp : plane = "xy" ∨ plane = "yz" ∨ plane = "xz") :
    buildWaypoints p r n plane = Except.ok [] := by
  have hne : n ≠ 0 := by omega
  have hcount : (n + 1).toNat = 0 := by omega
  obtain ⟨ia, ib, hax⟩ := valid_plane_axes plane hp
  rw [buildWaypoints_ok_any p r n plane ia ib hax hne, hcount]
  rfl

theorem C10_witness :
    ((-3 : ℤ) ≤ -1) ∧ ("xy" = "xy" ∨ "xy" = "yz" ∨ "xy" = "xz") ∧
    buildWaypoints startPoseEx 0.1 (-3) "xy" = Except.ok [] :=
  ⟨by norm_num, Or.inl rfl,
   C10_negative_points_empty startPoseEx 0.1 (-3) "xy" (by norm_num) (Or.inl rfl)⟩

/-- C7 counterexample: plane "yx" lies outside {"xy","yz","xz"} yet the
generator raises no error on it (both characters are valid axis keys, so
the circle is simply traced with swapped axes). -/
theorem C7_counterexample :
    ("yx" ≠ "xy" ∧ "yx" ≠ "yz" ∧ "yx" ≠ "xz") ∧
    exceptIsOk (buildWaypoints startPoseEx 0.1 4 "yx") = true := by
  refine ⟨⟨by decide, by decide, by decide⟩, ?_⟩
  rw [buildWaypoints_valid startPoseEx 0.1 4 "yx" 'y' 'x' [] 1 0 rfl rfl rfl
    (by decide)]
  rfl

/-- C7 (amended): with n_points ≥ 1, the generator raises an error exactly
when the first two characters of `plane` are not both axis letters
(IndexError below two characters, KeyError otherwise); plane strings
outside {"xy","yz","xz"} whose first two characters are axis letters, such
as "yx", are accepted without error. -/
theorem C7_plane_error_iff (p : Pose) (r : ℝ) (n : ℤ) (plane : String)
    (hr : 0 < r) (hn : 1 ≤ n) :
    exceptIsOk (buildWaypoints p r n plane) = true ↔
      (planeAxes plane).isSome = true := by
  have hne : n ≠ 0 := by omega
  cases hd : plane.data with
  | nil =>
    have hb : buildWaypoints p r n plane = Except.error PyError.indexError := by
      unfold buildWaypoints; rw [hd]
    have hx : planeAxes plane = none := by
      unfold planeAxes; rw [hd]
    rw [hb, hx]
    simp [exceptIsOk]
  | cons a tl =>
    cases tl with
    | nil =>
      have hb : buildWaypoints p r n plane = Except.error PyError.indexError := by
        unfold buildWaypoints; rw [hd]
      have hx : planeAxes plane = none := by
        unfold planeAxes; rw [hd]
      rw [hb, hx]
      simp [exceptIsOk]
    | cons b rest =>
      rw [buildWaypoints_data_cons p r n plane a b rest hd]
      have hx : planeAxes plane = planeAxesAux a b := by
        unfold planeAxes; rw [hd]
      rw [hx]
      cases hA : axisIndex a with
      | none =>
        have hb : buildWaypointsAux p r n a b =
            Except.error (PyError.keyError a) := by
          unfold buildWaypointsAux; rw [hA]
        have hxa : planeAxesAux a b = none := by
          unfold planeAxesAux
          rw [hA]
        rw [hb, hxa]
        simp [exceptIsOk]
      | some ia =>
        cases hB : axisIndex b with
        | some ib =>
          rw [buildWaypointsAux_ok p r n a b ia ib hA hB hne]
          have hxa : planeAxesAux a b = some (ia, ib) := by
            unfold planeAxesAux; rw [hA, hB]
          rw [hxa]
          simp [exceptIsOk]
        | none =>
          have hb : buildWaypointsAux p r n a b =
              Except.error (PyError.keyError b) := by
            unfold buildWaypointsAux
            rw [hA]
            have hcount : (n + 1).toNat = n.toNat + 1 := by omega
            rw [hcount, List.range_succ_eq_map]
            have hf0 : circlePoint p r n ia b (centreList p r ia) 0 =
                Except.error (PyError.keyError b) := by
              simp [circlePoint, hne, hB]
            simp [collectLoop, hf0]
          have hxa : planeAxesAux a b = none := by
            unfold planeAxesAux; rw [hA, hB]
          rw [hb, hxa]
          simp [exceptIsOk]

theorem C7_witness :
    (0 : ℝ) < 0.1 ∧ (1 : ℤ) ≤ 4 ∧
    (exceptIsOk (buildWaypoints startPoseEx 0.1 4 "yx") = true ↔
      (planeAxes "yx").isSome = true) :=
  ⟨by norm_num, by norm_num,
   C7_plane_error_iff startPoseEx 0.1 4 "yx" (by norm_num) (by norm_num)⟩

/-- C8 (amended): when `_build_waypoints` raises (n_points = 0 or a bad
plane), the error propagates out of `plan_cartesian_circle` before
`compute_cartesian_path` or `execute` is invoked — but after the two
collaborator calls `set_max_velocity_scaling_factor` and
`get_current_pose`, which lines 79 and 81 make before waypoint
generation. -/
theorem C8_error_trace {Traj : Type} (mg : MoveGroup Traj) (r : ℝ) (n : ℤ)
    (plane : String) (es js vs : ℝ) (execFlag : Bool) (ct : ℝ) (e : PyError)
    (he : buildWaypoints mg.current_pose r n plane = Except.error e) :
    plan_cartesian_circle mg r n plane es js vs execFlag ct =
      ([CallEvent.setMaxVelocityScalingFactor vs, CallEvent.getCurrentPose],
       Except.error e) := by
  unfold plan_cartesian_circle
  simp only [he]

/-- C8 counterexample: with the invalid argument n_points = 0 the run still
invokes two collaborator operations (velocity scaling and current-pose
reading) before the error: the trace is not empty, refuting the claim that
no collaborator call is ever made in such a run. -/
theorem C8_counterexample :
    (plan_cartesian_circle (stubGroup 0.97) 0.1 0 "xy" 0.005 0 0.2 true
        0.95).1 ≠ [] ∧
    plan_cartesian_circle (stubGroup 0.97) 0.1 0 "xy" 0.005 0 0.2 true 0.95 =
      ([CallEvent.setMaxVelocityScalingFactor 0.2, CallEvent.getCurrentPose],
       Except.error PyError.zeroDivisionError) := by
  refine ⟨?_, rfl⟩
  intro hcontr
  have hnil : ([CallEvent.setMaxVelocityScalingFactor (0.2 : ℝ),
      CallEvent.getCurrentPose] : List (CallEvent ℕ)) = [] := hcontr
  exact List.noConfusion hnil

theorem C8_witness :
    buildWaypoints (stubGroup 0.97).current_pose 0.1 0 "xy" =
      Except.error PyError.zeroDivisionError ∧
    plan_cartesian_circle (stubGroup 0.97) 0.1 0 "xy" 0.005 0 0.2 true 0.95 =
      ([CallEvent.setMaxVelocityScalingFactor 0.2, CallEvent.getCurrentPose],
       Except.error PyError.zeroDivisionError) :=
  ⟨rfl, C8_error_trace (stubGroup 0.97) 0.1 0 "xy" 0.005 0 0.2 true 0.95
    PyError.zeroDivisionError rfl⟩

end CartesianCircle
